import Mathlib

/-! Verification model of the multi-store provisioning control plane
(src/api/server.js).  The database tables, the POST /stores and
DELETE /stores/:id handlers, the background provisioning and deletion
tasks, the periodic cleanup task and the readiness-watch loop are
shallowly embedded as pure Lean functions.  Timestamps are integer
milliseconds (one clock reading per request, modelling Date.now()).
Database faults are injected through a `QuerySite → Bool` parameter
that mirrors which SQL statement throws.
-/

namespace StorePlatform

/-- CONFIG.MAX_STORES_GLOBAL (server.js line 29). -/
def MAX_STORES_GLOBAL : Nat := 100

/-- CONFIG.MAX_STORES_PER_TENANT (line 30). -/
def MAX_STORES_PER_TENANT : Nat := 10

/-- CONFIG.MAX_STORES_PER_HOUR (line 31). -/
def MAX_STORES_PER_HOUR : Nat := 5

/-- CONFIG.PROVISIONING_TIMEOUT_MS (line 32): 5 * 60 * 1000. -/
def PROVISIONING_TIMEOUT_MS : Nat := 5 * 60 * 1000

/-- CONFIG.MAX_READINESS_CHECKS (line 34). -/
def MAX_READINESS_CHECKS : Nat := 60

/-- CONFIG.IDEMPOTENCY_WINDOW_MS (line 35): 5 * 60 * 1000. -/
def IDEMPOTENCY_WINDOW_MS : Nat := 5 * 60 * 1000

/-- The rate window 60 * 60 * 1000 ms, inlined at lines 106, 295, 306. -/
def RATE_WINDOW_MS : Nat := 60 * 60 * 1000

/-- The five status strings ever written to stores.status
("Provisioning", "Ready", "Failed", "Deleting", "Deleted"). -/
inductive StoreStatus
  | provisioning
  | ready
  | failed
  | deleting
  | deleted
deriving DecidableEq, Repr

/-- A row of the stores table (schema at lines 43-58).  `namespace` is a
Lean keyword, so the column is called `nspace` here. -/
structure StoreRow where
  id : String
  tenant_id : String
  nspace : String
  host : String
  status : StoreStatus
  failure_reason : Option String
  created_at : Int
  provisioning_started_at : Option Int
  ready_at : Option Int
  deletion_started_at : Option Int
  deleted_at : Option Int
deriving DecidableEq, Repr

/-- A row of the idempotency_keys table (lines 62-67). -/
structure IdemRow where
  key : String
  store_id : String
  created_at : Int
deriving DecidableEq, Repr

/-- A row of the rate_limits table (lines 71-77); the auto-increment id
is the list position and is never read. -/
structure RateRow where
  tenant_id : String
  store_id : String
  created_at : Int
deriving DecidableEq, Repr

/-- A row of the audit_logs table (lines 81-93); the free-text `details`
and `ip_address` columns are elided, they are never read back. -/
structure AuditRow where
  tenant_id : String
  action : String
  resource_type : String
  resource_id : String
  status : String
  created_at : Int
deriving DecidableEq, Repr

/-- The shared database: the single source of truth for all replicas. -/
structure DB where
  stores : List StoreRow
  idempotency_keys : List IdemRow
  rate_limits : List RateRow
  audit_logs : List AuditRow
deriving DecidableEq, Repr

/-- The SQL statements of the create path that can throw; a
`QuerySite → Bool` fault function says which ones do. -/
inductive QuerySite
  | idemLookup
  | globalCount
  | tenantCount
  | rateCount
  | oldestRate
  | insStore
  | insIdem
  | insRate
deriving DecidableEq, Repr

/-- The fault function of a run in which no SQL statement throws. -/
def noFault : QuerySite → Bool := fun _ => false

/-- A fault function in which exactly one SQL statement throws. -/
def faultAt (q0 : QuerySite) : QuerySite → Bool := fun q => q == q0

/-- checkIdempotency (lines 322-341): join of idempotency_keys with
stores on store_id, filtered by key and created_at > now - window.
Returns the joined store row when one exists. -/
def checkIdempotency (db : DB) (idempotencyKey : String) (now : Int) :
    Option StoreRow :=
  match db.idempotency_keys.find? (fun i =>
      i.key == idempotencyKey &&
      decide (now - (IDEMPOTENCY_WINDOW_MS : Int) < i.created_at)) with
  | none => none
  | some i => db.stores.find? (fun s => s.id == i.store_id)

/-- SELECT COUNT(*) FROM stores WHERE status != "Deleted" (line 273). -/
def countGlobalActive (db : DB) : Nat :=
  (db.stores.filter (fun s => s.status != .deleted)).length

/-- SELECT COUNT(*) FROM stores WHERE tenant_id = ? AND
status != "Deleted" (line 284). -/
def countTenantActive (db : DB) (tenantId : String) : Nat :=
  (db.stores.filter (fun s =>
    s.tenant_id == tenantId && s.status != .deleted)).length

/-- The rate_limits rows of the tenant with created_at > now - 1h
(the WHERE clause at lines 297 and 303). -/
def rateWindow (db : DB) (tenantId : String) (now : Int) : List RateRow :=
  db.rate_limits.filter (fun r =>
    r.tenant_id == tenantId && decide (now - (RATE_WINDOW_MS : Int) < r.created_at))

/-- SELECT COUNT(*) over the rate window (line 296). -/
def countRateWindow (db : DB) (tenantId : String) (now : Int) : Nat :=
  (rateWindow db tenantId now).length

/-- Minimum of a list of integers, none on the empty list. -/
def listMin : List Int → Option Int
  | [] => none
  | x :: xs =>
    match listMin xs with
    | none => some x
    | some y => some (min x y)

/-- SELECT created_at FROM rate_limits ... ORDER BY created_at LIMIT 1
(lines 302-305): the least created_at in the rate window. -/
def oldestRateInWindow (db : DB) (tenantId : String) (now : Int) : Option Int :=
  listMin ((rateWindow db tenantId now).map (fun r => r.created_at))

/-- Math.ceil(a / 1000) on an integer numerator a (line 306);
`/` on Int is Euclidean division, which is floor division for a
positive divisor, and ceil(a/b) = -floor(-a/b). -/
def jsCeil1000 (a : Int) : Int := -((-a) / 1000)

/-- Result of validateRateLimit: valid, or invalid with the error text
and (only for the hourly rate branch) a retry-after value. -/
inductive RateCheck
  | ok
  | invalid (error : String) (retryAfter : Option Int)
deriving DecidableEq, Repr

/-- validateRateLimit (lines 269-320).  The three counting queries run
in order with early return; any of the four SQL statements throwing is
caught by the surrounding try/catch, which returns
invalid "Internal error" (lines 316-319).  Also returns the list of
query sites that were executed. -/
def validateRateLimit (db : DB) (tenantId : String) (now : Int)
    (fault : QuerySite → Bool) : RateCheck × List QuerySite :=
  if fault .globalCount then
    (.invalid "Internal error" none, [.globalCount])
  else if MAX_STORES_GLOBAL ≤ countGlobalActive db then
    (.invalid "Global store limit (100) reached" none, [.globalCount])
  else if fault .tenantCount then
    (.invalid "Internal error" none, [.globalCount, .tenantCount])
  else if MAX_STORES_PER_TENANT ≤ countTenantActive db tenantId then
    (.invalid "Tenant store limit (10) reached" none,
      [.globalCount, .tenantCount])
  else if fault .rateCount then
    (.invalid "Internal error" none, [.globalCount, .tenantCount, .rateCount])
  else if MAX_STORES_PER_HOUR ≤ countRateWindow db tenantId now then
    if fault .oldestRate then
      (.invalid "Internal error" none,
        [.globalCount, .tenantCount, .rateCount, .oldestRate])
    else
      match oldestRateInWindow db tenantId now with
      | none =>
          -- rows[0] of an empty result would throw; caught by the catch
          (.invalid "Internal error" none,
            [.globalCount, .tenantCount, .rateCount, .oldestRate])
      | some oldest =>
          (.invalid "Rate limit exceeded: max 5 stores per hour"
            (some (jsCeil1000 (oldest + (RATE_WINDOW_MS : Int) - now))),
            [.globalCount, .tenantCount, .rateCount, .oldestRate])
  else
    (.ok, [.globalCount, .tenantCount, .rateCount])

/-- uuid.slice(0, n) for the ASCII uuid string: the first n characters. -/
def sliceTake (s : String) (n : Nat) : String := ⟨s.data.take n⟩

/-- Line 375: the store id is "store-" followed by the first 8
characters of a fresh uuidv4 string. -/
def mkStoreId (uuid : String) : String := "store-" ++ sliceTake uuid 8

/-- Line 377: the host is the store id followed by the DNS suffix. -/
def mkHost (storeId : String) : String := storeId ++ ".127.0.0.1.nip.io"

/-- The stores row inserted by the create path (lines 381-385): status
Provisioning, no failure reason, created_at and provisioning_started_at
both now; the namespace equals the id (line 376). -/
def mkNewStore (tenantId uuid : String) (now : Int) : StoreRow :=
  { id := mkStoreId uuid
    tenant_id := tenantId
    nspace := mkStoreId uuid
    host := mkHost (mkStoreId uuid)
    status := .provisioning
    failure_reason := none
    created_at := now
    provisioning_started_at := some now
    ready_at := none
    deletion_started_at := none
    deleted_at := none }

/-- Response of POST /stores: 200 idempotent replay carrying the
existing store, 429 rate limited (Retry-After header and body field are
each present only when the retryAfter value is truthy, lines 368-371),
202 created, or 500 after rollback. -/
inductive PostResp
  | replay (store : StoreRow)
  | rateLimited (error : String) (retryAfterHeader : Option Int)
      (retryAfterBody : Option Int)
  | created (store : StoreRow)
  | serverError
deriving DecidableEq, Repr

/-- The HTTP status code of each POST /stores response. -/
def PostResp.httpStatus : PostResp → Nat
  | .replay _ => 200
  | .rateLimited _ _ _ => 429
  | .created _ => 202
  | .serverError => 500

/-- JS truthiness guard of lines 368-371: the retryAfter number is
attached to the header and the body only when it is nonzero. -/
def truthyRetry (ra : Option Int) : Option Int :=
  match ra with
  | none => none
  | some r => if r = 0 then none else some r

/-- The audit_logs row appended by the create path (line 414). -/
def createAudit (tenantId storeId : String) (now : Int) : AuditRow :=
  { tenant_id := tenantId, action := "CREATE_STORE", resource_type := "STORE"
    resource_id := storeId, status := "INITIATED", created_at := now }

/-- app.post("/stores") (lines 344-458).  In order: idempotency lookup
(replay commits with no writes and answers 200); validateRateLimit
(invalid commits with no writes and answers 429); otherwise insert the
store row, the idempotency record and the rate record and answer 202.
A throw from the lookup or from an insert (injected fault, or a
primary-key / unique-host collision) is caught at lines 451-457: the
transaction is rolled back and the response is 500.  Returns the
response, the database after commit/rollback, and the executed query
sites in order. -/
def postStores (db : DB) (tenantId idempotencyKey uuid : String) (now : Int)
    (fault : QuerySite → Bool) : PostResp × DB × List QuerySite :=
  if fault .idemLookup then
    (.serverError, db, [.idemLookup])
  else
    match checkIdempotency db idempotencyKey now with
    | some store => (.replay store, db, [.idemLookup])
    | none =>
      match validateRateLimit db tenantId now fault with
      | (.invalid err ra, sites) =>
          (.rateLimited err (truthyRetry ra) (truthyRetry ra), db,
            .idemLookup :: sites)
      | (.ok, sites) =>
          if fault .insStore ||
              db.stores.any (fun s =>
                s.id == mkStoreId uuid || s.host == mkHost (mkStoreId uuid)) then
            (.serverError, db, .idemLookup :: sites ++ [.insStore])
          else if fault .insIdem ||
              db.idempotency_keys.any (fun i => i.key == idempotencyKey) then
            (.serverError, db, .idemLookup :: sites ++ [.insStore, .insIdem])
          else if fault .insRate then
            (.serverError, db, .idemLookup :: sites ++ [.insStore, .insIdem, .insRate])
          else
            (.created (mkNewStore tenantId uuid now),
              { stores := db.stores ++ [mkNewStore tenantId uuid now]
                idempotency_keys := db.idempotency_keys ++
                  [{ key := idempotencyKey, store_id := mkStoreId uuid, created_at := now }]
                rate_limits := db.rate_limits ++
                  [{ tenant_id := tenantId, store_id := mkStoreId uuid, created_at := now }]
                audit_logs := db.audit_logs ++ [createAudit tenantId (mkStoreId uuid) now] },
              .idemLookup :: sites ++ [.insStore, .insIdem, .insRate])

/-- Response of DELETE /stores/:id (lines 499-569).  `initiated` carries
the response body store object of line 536: the row as read, with only
the status field overwritten by "Deleting". -/
inductive DeleteResp
  | notFound
  | alreadyDeleted (store : StoreRow)
  | inProgress (store : StoreRow)
  | initiated (store : StoreRow)
deriving DecidableEq, Repr

/-- The HTTP status code of each DELETE /stores/:id response. -/
def DeleteResp.httpStatus : DeleteResp → Nat
  | .notFound => 404
  | _ => 200

/-- The audit_logs row appended by the delete path (line 539). -/
def deleteAudit (tenantId storeId : String) (now : Int) : AuditRow :=
  { tenant_id := tenantId, action := "DELETE_STORE", resource_type := "STORE"
    resource_id := storeId, status := "INITIATED", created_at := now }

/-- app.delete("/stores/:id") (lines 499-539), the synchronous part.
SELECT ... WHERE id AND tenant_id FOR UPDATE; empty result is 404;
a Deleted or Deleting row commits unchanged with an idempotent 200;
otherwise UPDATE stores SET status = "Deleting",
deletion_started_at = now WHERE id = ? (no tenant filter, line 530),
then the audit row is appended. -/
def deleteStores (db : DB) (storeId tenantId : String) (now : Int) :
    DeleteResp × DB :=
  match db.stores.find? (fun s => s.id == storeId && s.tenant_id == tenantId) with
  | none => (.notFound, db)
  | some store =>
    if store.status = .deleted then (.alreadyDeleted store, db)
    else if store.status = .deleting then (.inProgress store, db)
    else
      (.initiated { store with status := .deleting },
        { db with
          stores := db.stores.map (fun s =>
            if s.id == storeId then
              { s with status := .deleting, deletion_started_at := some now }
            else s)
          audit_logs := db.audit_logs ++ [deleteAudit tenantId storeId now] })

/-- UPDATE stores SET status = "Ready", ready_at = now WHERE id = ?
(lines 430-433): final update of a successful provisioning task. -/
def updateStatusReady (db : DB) (storeId : String) (now : Int) : DB :=
  { db with stores := db.stores.map (fun s =>
      if s.id == storeId then { s with status := .ready, ready_at := some now }
      else s) }

/-- UPDATE stores SET status = "Failed", failure_reason = ? WHERE id = ?
(lines 436-439 and 443-446): final update of a failed provisioning
task, for both a readiness failure and a thrown install error. -/
def updateStatusFailed (db : DB) (storeId reason : String) : DB :=
  { db with stores := db.stores.map (fun s =>
      if s.id == storeId then
        { s with status := .failed, failure_reason := some reason }
      else s) }

/-- UPDATE stores SET status = "Deleted", deleted_at = now WHERE id = ?
(lines 549-552): final update of a successful deletion task. -/
def updateStatusDeleted (db : DB) (storeId : String) (now : Int) : DB :=
  { db with stores := db.stores.map (fun s =>
      if s.id == storeId then
        { s with status := .deleted, deleted_at := some now }
      else s) }

/-- UPDATE stores SET status = "Failed", failure_reason = "Deletion
failed: ..." WHERE id = ? (lines 554-557): final update of a failed
deletion task. -/
def updateDeletionFailed (db : DB) (storeId errMsg : String) : DB :=
  { db with stores := db.stores.map (fun s =>
      if s.id == storeId then
        { s with status := .failed,
                 failure_reason := some ("Deletion failed: " ++ errMsg) }
      else s) }

/-- cleanupOldData (lines 103-119): delete expired idempotency keys and
out-of-window rate rows. -/
def cleanupOldData (db : DB) (now : Int) : DB :=
  { db with
    idempotency_keys := db.idempotency_keys.filter (fun i =>
      decide (now - (IDEMPOTENCY_WINDOW_MS : Int) ≤ i.created_at))
    rate_limits := db.rate_limits.filter (fun r =>
      decide (now - (RATE_WINDOW_MS : Int) ≤ r.created_at)) }

/-- Global system state: the shared database plus the ids whose
asynchronous provisioning task (spawned at line 417) or deletion task
(spawned at line 542) has not yet performed its final update. -/
structure Sys where
  db : DB
  pendingProvision : List String
  pendingDeletion : List String
deriving DecidableEq, Repr

/-- The initial system state: empty tables, no background tasks. -/
def sysInit : Sys :=
  { db := { stores := [], idempotency_keys := [], rate_limits := [], audit_logs := [] }
    pendingProvision := []
    pendingDeletion := [] }

/-- One atomic step of the control plane: a create handler invocation
(with its clock reading and fresh uuid), the final update of a pending
provisioning task (ready, or failed with a reason), a delete handler
invocation, the final update of a pending deletion task, or a cleanup
tick. -/
inductive Step
  | create (tenantId idempotencyKey uuid : String) (now : Int)
  | provisionFinish (storeId : String) (ready : Bool) (reason : String) (now : Int)
  | deleteReq (storeId tenantId : String) (now : Int)
  | deleteFinish (storeId : String) (ok : Bool) (errMsg : String) (now : Int)
  | cleanup (now : Int)
deriving DecidableEq, Repr

/-- Interleaving semantics: apply one step to the system state.  A
create that commits a 202 spawns a provisioning task for the new id; a
delete that answers "deletion initiated" spawns a deletion task; each
task fires exactly once and performs the unconditional UPDATE of the
source.  Steps for tasks that are not pending do nothing. -/
def applyStep (s : Sys) (st : Step) : Sys :=
  match st with
  | .create tenantId idempotencyKey uuid now =>
    { db := (postStores s.db tenantId idempotencyKey uuid now noFault).2.1
      pendingProvision :=
        match (postStores s.db tenantId idempotencyKey uuid now noFault).1 with
        | .created store => s.pendingProvision ++ [store.id]
        | _ => s.pendingProvision
      pendingDeletion := s.pendingDeletion }
  | .provisionFinish storeId ready reason now =>
    if s.pendingProvision.contains storeId then
      { db := if ready then updateStatusReady s.db storeId now
              else updateStatusFailed s.db storeId reason
        pendingProvision := s.pendingProvision.erase storeId
        pendingDeletion := s.pendingDeletion }
    else s
  | .deleteReq storeId tenantId now =>
    { db := (deleteStores s.db storeId tenantId now).2
      pendingProvision := s.pendingProvision
      pendingDeletion :=
        match (deleteStores s.db storeId tenantId now).1 with
        | .initiated _ => s.pendingDeletion ++ [storeId]
        | _ => s.pendingDeletion }
  | .deleteFinish storeId ok errMsg now =>
    if s.pendingDeletion.contains storeId then
      { db := if ok then updateStatusDeleted s.db storeId now
              else updateDeletionFailed s.db storeId errMsg
        pendingProvision := s.pendingProvision
        pendingDeletion := s.pendingDeletion.erase storeId }
    else s
  | .cleanup now => { s with db := cleanupOldData s.db now }

/-- The reachable system states: every interleaving of steps starting
from the empty database. -/
inductive Reaches : Sys → Prop
  | init : Reaches sysInit
  | step (s : Sys) (st : Step) : Reaches s → Reaches (applyStep s st)

/-- The {ready, reason} object resolved by waitForStoreReadiness. -/
structure ReadinessResult where
  ready : Bool
  reason : Option String
deriving DecidableEq, Repr

/-- waitForStoreReadiness (lines 220-266), one interval tick per call.
`pod a` / `ingr a` give the outcome of the pod and ingress checks at
attempt number a; `elapsed a` is Date.now() - startTime observed at the
top of attempt a.  Each tick increments attempts, then checks the
wall-clock timeout, then the attempt cap, then runs the pod check and,
only if it is ready, the ingress check; a non-ready result just leaves
the interval running.  The second component lists the attempt numbers on
which the checks were run.  The fuel argument only bounds the recursion:
the cap branch stops every run no later than attempts = 60, so from the
entry point (fuel 61, attempts 0) the fuel is never exhausted and the
base case is unreachable. -/
def waitLoop (pod ingr : Nat → Bool) (elapsed : Nat → Nat) :
    Nat → Nat → ReadinessResult × List Nat
  | 0, _ => ({ ready := false, reason := some "Maximum readiness checks exceeded" }, [])
  | fuel + 1, attempts =>
    if PROVISIONING_TIMEOUT_MS < elapsed (attempts + 1) then
      ({ ready := false, reason := some "Provisioning timeout exceeded" }, [])
    else if MAX_READINESS_CHECKS < attempts + 1 then
      ({ ready := false, reason := some "Maximum readiness checks exceeded" }, [])
    else if pod (attempts + 1) then
      if ingr (attempts + 1) then ({ ready := true, reason := none }, [attempts + 1])
      else
        ((waitLoop pod ingr elapsed fuel (attempts + 1)).1,
          (attempts + 1) :: (waitLoop pod ingr elapsed fuel (attempts + 1)).2)
    else
      ((waitLoop pod ingr elapsed fuel (attempts + 1)).1,
        (attempts + 1) :: (waitLoop pod ingr elapsed fuel (attempts + 1)).2)

/-- Entry point of the readiness watch: attempts starts at 0. -/
def waitForStoreReadiness (pod ingr : Nat → Bool) (elapsed : Nat → Nat) :
    ReadinessResult × List Nat :=
  waitLoop pod ingr elapsed (MAX_READINESS_CHECKS + 1) 0

/-- A lowercase hexadecimal digit: the character classes 0-9 and a-f,
expressed on code points. -/
def isLowerHex (c : Char) : Prop :=
  (48 ≤ c.toNat ∧ c.toNat ≤ 57) ∨ (97 ≤ c.toNat ∧ c.toNat ≤ 102)

instance (c : Char) : Decidable (isLowerHex c) := by
  unfold isLowerHex; infer_instance

/-- A character of the class [a-z0-9-] or the dot, on code points:
45 is "-", 46 is ".", 48-57 are the digits, 97-122 are a-z. -/
def allowedHostChar (c : Char) : Prop :=
  c.toNat = 45 ∨ c.toNat = 46 ∨ (48 ≤ c.toNat ∧ c.toNat ≤ 57) ∨
    (97 ≤ c.toNat ∧ c.toNat ≤ 122)

instance (c : Char) : Decidable (allowedHostChar c) := by
  unfold allowedHostChar; infer_instance

/-! Concrete inputs used by the closed counterexamples, the failing
traces, and the witnesses of the theorems with hypotheses. -/

/-- A concrete uuidv4 output string. -/
def uuidW : String := "abcd1234-0000-4000-8000-000000000000"

/-- An empty database. -/
def dbEmpty : DB :=
  { stores := [], idempotency_keys := [], rate_limits := [], audit_logs := [] }

/-- A concrete Ready store of tenant t1. -/
def storeC2 : StoreRow :=
  { id := "store-1", tenant_id := "t1", nspace := "store-1", host := "h1"
    status := .ready, failure_reason := none, created_at := 0
    provisioning_started_at := some 0, ready_at := some 1
    deletion_started_at := none, deleted_at := none }

/-- A database holding storeC2 and an idempotency record for key k1
written at time 0. -/
def dbC2 : DB :=
  { stores := [storeC2]
    idempotency_keys := [{ key := "k1", store_id := "store-1", created_at := 0 }]
    rate_limits := []
    audit_logs := [] }

/-- A database with five rate records of tenant t1 inside the hour
before time 1000, the oldest at 100. -/
def dbC7 : DB :=
  { stores := []
    idempotency_keys := []
    rate_limits :=
      [{ tenant_id := "t1", store_id := "store-a", created_at := 300 },
       { tenant_id := "t1", store_id := "store-b", created_at := 100 },
       { tenant_id := "t1", store_id := "store-c", created_at := 200 },
       { tenant_id := "t1", store_id := "store-d", created_at := 400 },
       { tenant_id := "t1", store_id := "store-e", created_at := 500 }]
    audit_logs := [] }

/-- The failing trace of the terminal-Deleted claim: a store is
created, a delete is requested while its provisioning task is still
pending, the deletion task completes (status Deleted), and only then
the provisioning readiness loop times out and performs its final
update. -/
def c1sys1 : Sys := applyStep sysInit (.create "t1" "k1" uuidW 0)

/-- Second step of the failing trace: delete requested at time 10. -/
def c1sys2 : Sys := applyStep c1sys1 (.deleteReq "store-abcd1234" "t1" 10)

/-- Third step: the deletion task succeeds at time 20; the store is
now Deleted. -/
def c1sys3 : Sys := applyStep c1sys2 (.deleteFinish "store-abcd1234" true "" 20)

/-- Fourth step: the still-pending provisioning task times out at time
300005 and runs its unconditional UPDATE. -/
def c1sys4 : Sys :=
  applyStep c1sys3 (.provisionFinish "store-abcd1234" false
    "Provisioning timeout exceeded" 300005)

/-- Trace for the failure_reason biconditional: a store is created and
its provisioning fails. -/
def c3sys1 : Sys := applyStep sysInit (.create "t1" "k1" uuidW 0)

/-- Second step: provisioning fails with reason boom; the store is
Failed with a non-null failure_reason. -/
def c3sys2 : Sys :=
  applyStep c3sys1 (.provisionFinish "store-abcd1234" false "boom" 5)

/-- Third step: the Failed store is deleted; the handler sets status
Deleting but never clears failure_reason. -/
def c3sys3 : Sys := applyStep c3sys2 (.deleteReq "store-abcd1234" "t1" 10)

/-- The Failed store row as it stands in c3sys2. -/
def rowC3 : StoreRow :=
  { id := "store-abcd1234", tenant_id := "t1", nspace := "store-abcd1234"
    host := "store-abcd1234.127.0.0.1.nip.io", status := .failed
    failure_reason := some "boom", created_at := 0
    provisioning_started_at := some 0, ready_at := none
    deletion_started_at := none, deleted_at := none }

/-- Readiness witness inputs: pods become ready from attempt 2 on. -/
def podW : Nat → Bool := fun n => decide (2 ≤ n)

/-- Readiness witness inputs: the ingress is always ready. -/
def ingrW : Nat → Bool := fun _ => true

/-- Readiness witness inputs: each attempt happens 5000 ms after the
previous one. -/
def elapsedW : Nat → Nat := fun n => 5000 * n

/-! Theorems settling the claims, with their helper lemmas. -/

theorem listMin_none {l : List Int} : listMin l = none ↔ l = [] := by
  cases l with
  | nil => simp [listMin]
  | cons x xs =>
    simp only [listMin]
    cases listMin xs <;> simp

theorem listMin_mem : ∀ {l : List Int} {m : Int}, listMin l = some m → m ∈ l := by
  intro l
  induction l with
  | nil => intro m h; simp [listMin] at h
  | cons x xs ih =>
    intro m h
    unfold listMin at h
    cases hm : listMin xs with
    | none =>
      rw [hm] at h
      simp only [Option.some.injEq] at h
      simp [h]
    | some y =>
      rw [hm] at h
      simp only [Option.some.injEq] at h
      rcases le_total x y with hxy | hyx
      · rw [← h, min_eq_left hxy]
        exact List.mem_cons_self x xs
      · rw [← h, min_eq_right hyx]
        exact List.mem_cons_of_mem x (ih hm)

theorem listMin_le : ∀ {l : List Int} {m : Int}, listMin l = some m →
    ∀ x ∈ l, m ≤ x := by
  intro l
  induction l with
  | nil => intro m h; simp
  | cons x xs ih =>
    intro m h
    unfold listMin at h
    cases hm : listMin xs with
    | none =>
      rw [hm] at h
      simp only [Option.some.injEq] at h
      rw [listMin_none.1 hm]
      simp [← h]
    | some y =>
      rw [hm] at h
      simp only [Option.some.injEq] at h
      intro z hz
      rcases List.mem_cons.1 hz with hz | hz
      · rw [← h, hz]; exact min_le_left x y
      · calc m ≤ y := by rw [← h]; exact min_le_right x y
          _ ≤ z := ih hm z hz

theorem listMin_of_ne_nil {l : List Int} (h : l ≠ []) : ∃ m, listMin l = some m := by
  cases hm : listMin l with
  | none => exact absurd (listMin_none.1 hm) h
  | some m => exact ⟨m, rfl⟩

theorem rateWindow_created {db : DB} {tenantId : String} {now : Int} {r : RateRow}
    (h : r ∈ rateWindow db tenantId now) :
    now - (RATE_WINDOW_MS : Int) < r.created_at := by
  unfold rateWindow at h
  have hp := (List.mem_filter.1 h).2
  simp only [Bool.and_eq_true, decide_eq_true_eq] at hp
  exact hp.2

/-- Evaluation of validateRateLimit when all three counting checks pass
and none of its queries throws. -/
theorem validateRateLimit_ok (db : DB) (tenantId : String) (now : Int)
    (fault : QuerySite → Bool)
    (hfg : fault .globalCount = false) (hft : fault .tenantCount = false)
    (hfr : fault .rateCount = false)
    (hG : countGlobalActive db < MAX_STORES_GLOBAL)
    (hT : countTenantActive db tenantId < MAX_STORES_PER_TENANT)
    (hR : countRateWindow db tenantId now < MAX_STORES_PER_HOUR) :
    validateRateLimit db tenantId now fault =
      (.ok, [.globalCount, .tenantCount, .rateCount]) := by
  unfold validateRateLimit
  rw [hfg, hft, hfr]
  rw [if_neg (by simp), if_neg (by omega), if_neg (by simp), if_neg (by omega),
    if_neg (by simp), if_neg (by omega)]

/-- Evaluation of validateRateLimit when its first query throws. -/
theorem validateRateLimit_fault_global (db : DB) (tenantId : String) (now : Int)
    (fault : QuerySite → Bool) (hfg : fault .globalCount = true) :
    validateRateLimit db tenantId now fault =
      (.invalid "Internal error" none, [.globalCount]) := by
  unfold validateRateLimit
  rw [hfg, if_pos rfl]

/-- Evaluation of validateRateLimit when the tenant-count query throws
after the global check passed. -/
theorem validateRateLimit_fault_tenant (db : DB) (tenantId : String) (now : Int)
    (fault : QuerySite → Bool)
    (hfg : fault .globalCount = false) (hft : fault .tenantCount = true)
    (hG : countGlobalActive db < MAX_STORES_GLOBAL) :
    validateRateLimit db tenantId now fault =
      (.invalid "Internal error" none, [.globalCount, .tenantCount]) := by
  unfold validateRateLimit
  rw [hfg, hft]
  rw [if_neg (by simp), if_neg (by omega), if_pos rfl]

/-- Evaluation of validateRateLimit when the rate-window count query
throws after the two cap checks passed. -/
theorem validateRateLimit_fault_rate (db : DB) (tenantId : String) (now : Int)
    (fault : QuerySite → Bool)
    (hfg : fault .globalCount = false) (hft : fault .tenantCount = false)
    (hfr : fault .rateCount = true)
    (hG : countGlobalActive db < MAX_STORES_GLOBAL)
    (hT : countTenantActive db tenantId < MAX_STORES_PER_TENANT) :
    validateRateLimit db tenantId now fault =
      (.invalid "Internal error" none,
       [.globalCount, .tenantCount, .rateCount]) := by
  unfold validateRateLimit
  rw [hfg, hft, hfr]
  rw [if_neg (by simp), if_neg (by omega), if_neg (by simp), if_neg (by omega),
    if_pos rfl]

/-- Evaluation of validateRateLimit when the counting caps pass but the
hourly rate cap is hit: the oldest in-window record yields the
retry-after value. -/
theorem validateRateLimit_rate (db : DB) (tenantId : String) (now oldest : Int)
    (fault : QuerySite → Bool)
    (hfg : fault .globalCount = false) (hft : fault .tenantCount = false)
    (hfr : fault .rateCount = false) (hfo : fault .oldestRate = false)
    (hG : countGlobalActive db < MAX_STORES_GLOBAL)
    (hT : countTenantActive db tenantId < MAX_STORES_PER_TENANT)
    (hR : MAX_STORES_PER_HOUR ≤ countRateWindow db tenantId now)
    (ho : oldestRateInWindow db tenantId now = some oldest) :
    validateRateLimit db tenantId now fault =
      (.invalid "Rate limit exceeded: max 5 stores per hour"
        (some (jsCeil1000 (oldest + (RATE_WINDOW_MS : Int) - now))),
       [.globalCount, .tenantCount, .rateCount, .oldestRate]) := by
  unfold validateRateLimit
  rw [hfg, hft, hfr, hfo]
  rw [if_neg (by simp), if_neg (by omega), if_neg (by simp), if_neg (by omega),
    if_neg (by simp), if_pos (by omega), if_neg (by simp), ho]

/-- C7: a POST /stores rejected by the per-tenant hourly rate check
answers 429, carrying in both the Retry-After header and the body the
value ceil((oldest in-window created_at + 1h - now) / 1s); the oldest
record lies strictly inside the window, so this value is at least 1.
The two final inequalities characterise the value as the exact
ceiling.  The database is returned unchanged. -/
theorem C7_rate_limit_retry_after (db : DB)
    (tenantId idempotencyKey uuid : String) (now : Int)
    (hIdem : checkIdempotency db idempotencyKey now = none)
    (hG : countGlobalActive db < MAX_STORES_GLOBAL)
    (hT : countTenantActive db tenantId < MAX_STORES_PER_TENANT)
    (hR : MAX_STORES_PER_HOUR ≤ countRateWindow db tenantId now) :
    ∃ oldest : Int,
      oldestRateInWindow db tenantId now = some oldest ∧
      oldest ∈ (rateWindow db tenantId now).map (fun r => r.created_at) ∧
      (∀ r ∈ rateWindow db tenantId now, oldest ≤ r.created_at) ∧
      now - (RATE_WINDOW_MS : Int) < oldest ∧
      1 ≤ jsCeil1000 (oldest + (RATE_WINDOW_MS : Int) - now) ∧
      1000 * (jsCeil1000 (oldest + (RATE_WINDOW_MS : Int) - now) - 1) <
        oldest + (RATE_WINDOW_MS : Int) - now ∧
      oldest + (RATE_WINDOW_MS : Int) - now ≤
        1000 * jsCeil1000 (oldest + (RATE_WINDOW_MS : Int) - now) ∧
      postStores db tenantId idempotencyKey uuid now noFault =
        (.rateLimited "Rate limit exceeded: max 5 stores per hour"
           (some (jsCeil1000 (oldest + (RATE_WINDOW_MS : Int) - now)))
           (some (jsCeil1000 (oldest + (RATE_WINDOW_MS : Int) - now))),
         db,
         [.idemLookup, .globalCount, .tenantCount, .rateCount, .oldestRate]) ∧
      (postStores db tenantId idempotencyKey uuid now noFault).1.httpStatus = 429 := by
  have h5 : MAX_STORES_PER_HOUR = 5 := rfl
  have hne : rateWindow db tenantId now ≠ [] := by
    intro hnil
    have : countRateWindow db tenantId now = 0 := by
      unfold countRateWindow
      rw [hnil]
      rfl
    omega
  have hmapne : (rateWindow db tenantId now).map (fun r => r.created_at) ≠ [] := by
    intro hnil
    exact hne (List.map_eq_nil_iff.1 hnil)
  obtain ⟨oldest, ho⟩ := listMin_of_ne_nil hmapne
  have homem : oldest ∈ (rateWindow db tenantId now).map (fun r => r.created_at) :=
    listMin_mem ho
  obtain ⟨r0, hr0mem, hr0eq⟩ := List.mem_map.1 homem
  have hwin : now - (RATE_WINDOW_MS : Int) < oldest := by
    rw [← hr0eq]
    exact rateWindow_created hr0mem
  have hpos : 1 ≤ oldest + (RATE_WINDOW_MS : Int) - now := by omega
  have hceil : 1 ≤ jsCeil1000 (oldest + (RATE_WINDOW_MS : Int) - now) := by
    unfold jsCeil1000
    omega
  have hra0 : jsCeil1000 (oldest + (RATE_WINDOW_MS : Int) - now) ≠ 0 := by omega
  have hpost : postStores db tenantId idempotencyKey uuid now noFault =
      (.rateLimited "Rate limit exceeded: max 5 stores per hour"
         (some (jsCeil1000 (oldest + (RATE_WINDOW_MS : Int) - now)))
         (some (jsCeil1000 (oldest + (RATE_WINDOW_MS : Int) - now))),
       db,
       [.idemLookup, .globalCount, .tenantCount, .rateCount, .oldestRate]) := by
    unfold postStores
    rw [show noFault QuerySite.idemLookup = false from rfl, hIdem,
      validateRateLimit_rate db tenantId now oldest noFault rfl rfl rfl rfl hG hT hR ho]
    simp [truthyRetry, hra0]
  refine ⟨oldest, ho, homem, ?_, hwin, hceil, ?_, ?_, hpost, ?_⟩
  · intro r hr
    exact listMin_le ho r.created_at (List.mem_map_of_mem (fun r => r.created_at) hr)
  · unfold jsCeil1000
    omega
  · unfold jsCeil1000
    omega
  · rw [hpost]
    rfl

/-- Witness for C7 on a concrete database: with five in-window rate
records, the oldest at time 100 and the clock at 1000, the request is
rejected with retry-after 3600 seconds in header and body. -/
theorem C7_witness :
    postStores dbC7 "t1" "k2" uuidW 1000 noFault =
      (.rateLimited "Rate limit exceeded: max 5 stores per hour"
         (some 3600) (some 3600),
       dbC7,
       [.idemLookup, .globalCount, .tenantCount, .rateCount, .oldestRate]) := by
  obtain ⟨oldest, ho, -, -, -, -, -, -, hpost, -⟩ :=
    C7_rate_limit_retry_after dbC7 "t1" "k2" uuidW 1000
      (by decide) (by decide) (by decide) (by decide)
  have h100 : oldestRateInWindow dbC7 "t1" 1000 = some 100 := by decide
  rw [ho] at h100
  simp only [Option.some.injEq] at h100
  rw [hpost, h100]
  decide

theorem waitLoop_len (pod ingr : Nat → Bool) (elapsed : Nat → Nat) :
    ∀ fuel attempts, ((waitLoop pod ingr elapsed fuel attempts).2).length ≤
      MAX_READINESS_CHECKS - attempts := by
  intro fuel
  induction fuel with
  | zero => intro attempts; simp [waitLoop]
  | succ fuel ih =>
    intro attempts
    by_cases h1 : PROVISIONING_TIMEOUT_MS < elapsed (attempts + 1)
    · unfold waitLoop
      rw [if_pos h1]
      simp
    · by_cases h2 : MAX_READINESS_CHECKS < attempts + 1
      · unfold waitLoop
        rw [if_neg h1, if_pos h2]
        simp
      · by_cases h3 : pod (attempts + 1) = true
        · by_cases h4 : ingr (attempts + 1) = true
          · unfold waitLoop
            rw [if_neg h1, if_neg h2, if_pos h3, if_pos h4]
            simp only [List.length_singleton]
            omega
          · unfold waitLoop
            rw [if_neg h1, if_neg h2, if_pos h3, if_neg h4]
            simp only [List.length_cons]
            have := ih (attempts + 1)
            omega
        · unfold waitLoop
          rw [if_neg h1, if_neg h2, if_neg h3]
          simp only [List.length_cons]
          have := ih (attempts + 1)
          omega

theorem waitLoop_mem (pod ingr : Nat → Bool) (elapsed : Nat → Nat) :
    ∀ fuel attempts a, a ∈ (waitLoop pod ingr elapsed fuel attempts).2 →
      attempts < a ∧ a ≤ MAX_READINESS_CHECKS ∧
      elapsed a ≤ PROVISIONING_TIMEOUT_MS := by
  intro fuel
  induction fuel with
  | zero => intro attempts a ha; simp [waitLoop] at ha
  | succ fuel ih =>
    intro attempts a ha
    by_cases h1 : PROVISIONING_TIMEOUT_MS < elapsed (attempts + 1)
    · unfold waitLoop at ha
      rw [if_pos h1] at ha
      simp at ha
    · by_cases h2 : MAX_READINESS_CHECKS < attempts + 1
      · unfold waitLoop at ha
        rw [if_neg h1, if_pos h2] at ha
        simp at ha
      · by_cases h3 : pod (attempts + 1) = true
        · by_cases h4 : ingr (attempts + 1) = true
          · unfold waitLoop at ha
            rw [if_neg h1, if_neg h2, if_pos h3, if_pos h4] at ha
            simp only [List.mem_singleton] at ha
            subst ha
            omega
          · unfold waitLoop at ha
            rw [if_neg h1, if_neg h2, if_pos h3, if_neg h4] at ha
            rcases List.mem_cons.1 ha with ha | ha
            · subst ha
              omega
            · have := ih (attempts + 1) a ha
              omega
        · unfold waitLoop at ha
          rw [if_neg h1, if_neg h2, if_neg h3] at ha
          rcases List.mem_cons.1 ha with ha | ha
          · subst ha
            omega
          · have := ih (attempts + 1) a ha
            omega

theorem waitLoop_ready (pod ingr : Nat → Bool) (elapsed : Nat → Nat) :
    ∀ fuel attempts, (waitLoop pod ingr elapsed fuel attempts).1.ready = true →
      (waitLoop pod ingr elapsed fuel attempts).1.reason = none ∧
      ∃ a ∈ (waitLoop pod ingr elapsed fuel attempts).2,
        pod a = true ∧ ingr a = true := by
  intro fuel
  induction fuel with
  | zero => intro attempts h; simp [waitLoop] at h
  | succ fuel ih =>
    intro attempts h
    by_cases h1 : PROVISIONING_TIMEOUT_MS < elapsed (attempts + 1)
    · unfold waitLoop at h
      rw [if_pos h1] at h
      simp at h
    · by_cases h2 : MAX_READINESS_CHECKS < attempts + 1
      · unfold waitLoop at h
        rw [if_neg h1, if_pos h2] at h
        simp at h
      · by_cases h3 : pod (attempts + 1) = true
        · by_cases h4 : ingr (attempts + 1) = true
          · unfold waitLoop
            rw [if_neg h1, if_neg h2, if_pos h3, if_pos h4]
            exact ⟨rfl, attempts + 1, List.mem_singleton.2 rfl, h3, h4⟩
          · unfold waitLoop at h ⊢
            rw [if_neg h1, if_neg h2, if_pos h3, if_neg h4] at h ⊢
            obtain ⟨hr, a, ha, hpa, hia⟩ := ih (attempts + 1) h
            exact ⟨hr, a, List.mem_cons_of_mem _ ha, hpa, hia⟩
        · unfold waitLoop at h ⊢
          rw [if_neg h1, if_neg h2, if_neg h3] at h ⊢
          obtain ⟨hr, a, ha, hpa, hia⟩ := ih (attempts + 1) h
          exact ⟨hr, a, List.mem_cons_of_mem _ ha, hpa, hia⟩

theorem waitLoop_failed (pod ingr : Nat → Bool) (elapsed : Nat → Nat) :
    ∀ fuel attempts, (waitLoop pod ingr elapsed fuel attempts).1.ready = false →
      ((waitLoop pod ingr elapsed fuel attempts).1.reason =
          some "Provisioning timeout exceeded" ∧
        ∃ a, PROVISIONING_TIMEOUT_MS < elapsed a) ∨
      (waitLoop pod ingr elapsed fuel attempts).1.reason =
        some "Maximum readiness checks exceeded" := by
  intro fuel
  induction fuel with
  | zero => intro attempts h; exact Or.inr rfl
  | succ fuel ih =>
    intro attempts h
    by_cases h1 : PROVISIONING_TIMEOUT_MS < elapsed (attempts + 1)
    · unfold waitLoop
      rw [if_pos h1]
      exact Or.inl ⟨rfl, attempts + 1, h1⟩
    · by_cases h2 : MAX_READINESS_CHECKS < attempts + 1
      · unfold waitLoop
        rw [if_neg h1, if_pos h2]
        exact Or.inr rfl
      · by_cases h3 : pod (attempts + 1) = true
        · by_cases h4 : ingr (attempts + 1) = true
          · unfold waitLoop at h
            rw [if_neg h1, if_neg h2, if_pos h3, if_pos h4] at h
            simp at h
          · unfold waitLoop at h ⊢
            rw [if_neg h1, if_neg h2, if_pos h3, if_neg h4] at h ⊢
            exact ih (attempts + 1) h
        · unfold waitLoop at h ⊢
          rw [if_neg h1, if_neg h2, if_neg h3] at h ⊢
          exact ih (attempts + 1) h

/-- C5: the readiness loop always terminates (waitLoop is total and its
fuel is never exhausted from the entry point); it runs at most
MAX_READINESS_CHECKS = 60 check attempts; it never runs a check on an
attempt whose elapsed time exceeds PROVISIONING_TIMEOUT_MS or whose
number exceeds the cap; it resolves ready only when the pod check and
then the ingress check both report ready on some attempt; a false
resolution carries exactly one of the two stop reasons, the timeout one
only when the elapsed time exceeded the timeout; the timeout test wins
over the attempt cap at the top of each attempt; and a non-ready pod or
ingress check only schedules another attempt. -/
theorem C5_waitForStoreReadiness_bounds (pod ingr : Nat → Bool)
    (elapsed : Nat → Nat) :
    (waitForStoreReadiness pod ingr elapsed).2.length ≤ MAX_READINESS_CHECKS ∧
    (∀ a ∈ (waitForStoreReadiness pod ingr elapsed).2,
      1 ≤ a ∧ a ≤ MAX_READINESS_CHECKS ∧ elapsed a ≤ PROVISIONING_TIMEOUT_MS) ∧
    ((waitForStoreReadiness pod ingr elapsed).1.ready = true →
      (waitForStoreReadiness pod ingr elapsed).1.reason = none ∧
      ∃ a ∈ (waitForStoreReadiness pod ingr elapsed).2,
        pod a = true ∧ ingr a = true) ∧
    ((waitForStoreReadiness pod ingr elapsed).1.ready = false →
      ((waitForStoreReadiness pod ingr elapsed).1.reason =
          some "Provisioning timeout exceeded" ∧
        ∃ a, PROVISIONING_TIMEOUT_MS < elapsed a) ∨
      (waitForStoreReadiness pod ingr elapsed).1.reason =
        some "Maximum readiness checks exceeded") ∧
    (∀ fuel attempts, PROVISIONING_TIMEOUT_MS < elapsed (attempts + 1) →
      waitLoop pod ingr elapsed (fuel + 1) attempts =
        ({ ready := false, reason := some "Provisioning timeout exceeded" }, [])) ∧
    (∀ fuel attempts, elapsed (attempts + 1) ≤ PROVISIONING_TIMEOUT_MS →
      MAX_READINESS_CHECKS < attempts + 1 →
      waitLoop pod ingr elapsed (fuel + 1) attempts =
        ({ ready := false, reason := some "Maximum readiness checks exceeded" }, [])) ∧
    (∀ fuel attempts, elapsed (attempts + 1) ≤ PROVISIONING_TIMEOUT_MS →
      attempts + 1 ≤ MAX_READINESS_CHECKS → pod (attempts + 1) = false →
      waitLoop pod ingr elapsed (fuel + 1) attempts =
        ((waitLoop pod ingr elapsed fuel (attempts + 1)).1,
          (attempts + 1) :: (waitLoop pod ingr elapsed fuel (attempts + 1)).2)) ∧
    (∀ fuel attempts, elapsed (attempts + 1) ≤ PROVISIONING_TIMEOUT_MS →
      attempts + 1 ≤ MAX_READINESS_CHECKS → pod (attempts + 1) = true →
      ingr (attempts + 1) = false →
      waitLoop pod ingr elapsed (fuel + 1) attempts =
        ((waitLoop pod ingr elapsed fuel (attempts + 1)).1,
          (attempts + 1) :: (waitLoop pod ingr elapsed fuel (attempts + 1)).2)) := by
  refine ⟨?_, ?_, ?_, ?_, ?_, ?_, ?_, ?_⟩
  · have := waitLoop_len pod ingr elapsed (MAX_READINESS_CHECKS + 1) 0
    simpa using this
  · intro a ha
    have := waitLoop_mem pod ingr elapsed (MAX_READINESS_CHECKS + 1) 0 a ha
    omega
  · exact waitLoop_ready pod ingr elapsed (MAX_READINESS_CHECKS + 1) 0
  · exact waitLoop_failed pod ingr elapsed (MAX_READINESS_CHECKS + 1) 0
  · intro fuel attempts h1
    unfold waitLoop
    rw [if_pos h1]
  · intro fuel attempts h1 h2
    unfold waitLoop
    rw [if_neg (by omega), if_pos h2]
  · intro fuel attempts h1 h2 h3
    conv_lhs => rw [waitLoop]
    rw [if_neg (by omega), if_neg (by omega),
      if_neg (by rw [h3]; exact Bool.false_ne_true)]
  · intro fuel attempts h1 h2 h3 h4
    conv_lhs => rw [waitLoop]
    rw [if_neg (by omega), if_neg (by omega), if_pos h3,
      if_neg (by rw [h4]; exact Bool.false_ne_true)]

/-- Witness for C5 on concrete inputs: pods ready from attempt 2 on,
ingress always ready, five seconds per attempt: the loop resolves
ready, so its reason is none. -/
theorem C5_witness :
    (waitForStoreReadiness podW ingrW elapsedW).1.reason = none :=
  ((C5_waitForStoreReadiness_bounds podW ingrW elapsedW).2.2.1 (by decide)).1

/-- C2: a POST /stores whose idempotency key matches a non-expired
idempotency record returns the joined store with HTTP 200 and
short-circuits: the database is unchanged (so no stores,
idempotency_keys or rate_limits row is inserted and all three counts
are unchanged) and the global-cap, per-tenant-cap and rate-window
queries are never executed. -/
theorem C2_idempotent_replay_short_circuits
    (db : DB) (tenantId idempotencyKey uuid : String) (now : Int)
    (fault : QuerySite → Bool) (store : StoreRow)
    (hf : fault .idemLookup = false)
    (h : checkIdempotency db idempotencyKey now = some store) :
    postStores db tenantId idempotencyKey uuid now fault =
      (.replay store, db, [.idemLookup]) ∧
    (postStores db tenantId idempotencyKey uuid now fault).1.httpStatus = 200 ∧
    countGlobalActive (postStores db tenantId idempotencyKey uuid now fault).2.1 =
      countGlobalActive db ∧
    countTenantActive (postStores db tenantId idempotencyKey uuid now fault).2.1 tenantId =
      countTenantActive db tenantId ∧
    countRateWindow (postStores db tenantId idempotencyKey uuid now fault).2.1 tenantId now =
      countRateWindow db tenantId now ∧
    QuerySite.globalCount ∉ (postStores db tenantId idempotencyKey uuid now fault).2.2 ∧
    QuerySite.tenantCount ∉ (postStores db tenantId idempotencyKey uuid now fault).2.2 ∧
    QuerySite.rateCount ∉ (postStores db tenantId idempotencyKey uuid now fault).2.2 := by
  have hp : postStores db tenantId idempotencyKey uuid now fault =
      (.replay store, db, [.idemLookup]) := by
    unfold postStores
    rw [hf, h]
    simp
  rw [hp]
  refine ⟨rfl, rfl, rfl, rfl, rfl, ?_, ?_, ?_⟩ <;> simp

/-- Witness for C2 on a concrete database: the replay of key k1 at
time 1000 returns storeC2 and leaves dbC2 untouched. -/
theorem C2_witness :
    postStores dbC2 "t1" "k1" uuidW 1000 noFault =
      (.replay storeC2, dbC2, [.idemLookup]) :=
  (C2_idempotent_replay_short_circuits dbC2 "t1" "k1" uuidW 1000 noFault storeC2
    (by decide) (by decide)).1

/-- C4 counterexample: a collision on the primary key of
idempotency_keys is NOT retried.  In dbC2 the key k1 exists but its
record is expired at time 400000, so the lookup misses, the gate
passes, and the insert collides: the catch branch rolls back and
answers 500 instead of returning the existing store. -/
theorem C4_collision_returns_500 :
    checkIdempotency dbC2 "k1" 400000 = none ∧
    dbC2.idempotency_keys.any (fun i => i.key == "k1") = true ∧
    postStores dbC2 "t1" "k1" uuidW 400000 noFault =
      (.serverError, dbC2,
       [.idemLookup, .globalCount, .tenantCount, .rateCount, .insStore, .insIdem]) ∧
    (postStores dbC2 "t1" "k1" uuidW 400000 noFault).1 ≠ .replay storeC2 ∧
    (postStores dbC2 "t1" "k1" uuidW 400000 noFault).1.httpStatus = 500 := by
  decide

/-- C4 amended: when the idempotency-key insert collides (the key is
already present although the lookup missed it), the losing request is
not retried: the transaction is rolled back (the database is returned
unchanged) and the response is HTTP 500. -/
theorem C4_collision_rolls_back (db : DB)
    (tenantId idempotencyKey uuid : String) (now : Int)
    (hIdem : checkIdempotency db idempotencyKey now = none)
    (hG : countGlobalActive db < MAX_STORES_GLOBAL)
    (hT : countTenantActive db tenantId < MAX_STORES_PER_TENANT)
    (hR : countRateWindow db tenantId now < MAX_STORES_PER_HOUR)
    (hNoC : db.stores.any (fun s =>
      s.id == mkStoreId uuid || s.host == mkHost (mkStoreId uuid)) = false)
    (hKey : db.idempotency_keys.any (fun i => i.key == idempotencyKey) = true) :
    postStores db tenantId idempotencyKey uuid now noFault =
      (.serverError, db,
       [.idemLookup, .globalCount, .tenantCount, .rateCount, .insStore, .insIdem]) ∧
    (postStores db tenantId idempotencyKey uuid now noFault).1.httpStatus = 500 ∧
    (postStores db tenantId idempotencyKey uuid now noFault).2.1 = db := by
  have hp : postStores db tenantId idempotencyKey uuid now noFault =
      (.serverError, db,
       [.idemLookup, .globalCount, .tenantCount, .rateCount, .insStore, .insIdem]) := by
    unfold postStores
    rw [show noFault QuerySite.idemLookup = false from rfl, hIdem,
      validateRateLimit_ok db tenantId now noFault rfl rfl rfl hG hT hR]
    rw [show noFault QuerySite.insStore = false from rfl, hNoC,
      show noFault QuerySite.insIdem = false from rfl, hKey]
    simp
  rw [hp]
  exact ⟨rfl, rfl, rfl⟩

/-- Witness for C4 on the concrete collision database: the transaction
is rolled back, the database is unchanged. -/
theorem C4_witness :
    (postStores dbC2 "t1" "k1" uuidW 400000 noFault).2.1 = dbC2 :=
  (C4_collision_rolls_back dbC2 "t1" "k1" uuidW 400000 (by decide) (by decide)
    (by decide) (by decide) (by decide) (by decide)).2.2

/-- C8 counterexample: a database failure inside the rate-window query
does NOT surface as 500.  validateRateLimit catches it and returns
invalid "Internal error", which the handler answers with 429. -/
theorem C8_rate_query_failure_429 :
    (postStores dbEmpty "t1" "k1" uuidW 0 (faultAt .rateCount)).1 =
      .rateLimited "Internal error" none none ∧
    (postStores dbEmpty "t1" "k1" uuidW 0 (faultAt .rateCount)).1.httpStatus = 429 ∧
    (postStores dbEmpty "t1" "k1" uuidW 0 (faultAt .rateCount)).1.httpStatus ≠ 500 := by
  decide

/-- C8 amended: a database failure in the idempotency lookup or in any
of the three inserts surfaces as 500 with the transaction rolled back
(the database is unchanged); but a failure inside the global-cap,
per-tenant-cap or rate-window queries is caught by validateRateLimit
and surfaces as 429 with error "Internal error" (also leaving the
database unchanged). -/
theorem C8_persistence_errors (db : DB)
    (tenantId idempotencyKey uuid : String) (now : Int)
    (hIdem : checkIdempotency db idempotencyKey now = none)
    (hG : countGlobalActive db < MAX_STORES_GLOBAL)
    (hT : countTenantActive db tenantId < MAX_STORES_PER_TENANT)
    (hR : countRateWindow db tenantId now < MAX_STORES_PER_HOUR)
    (hNoC : db.stores.any (fun s =>
      s.id == mkStoreId uuid || s.host == mkHost (mkStoreId uuid)) = false)
    (hNoKey : db.idempotency_keys.any (fun i => i.key == idempotencyKey) = false) :
    postStores db tenantId idempotencyKey uuid now (faultAt .idemLookup) =
      (.serverError, db, [.idemLookup]) ∧
    (postStores db tenantId idempotencyKey uuid now (faultAt .idemLookup)).1.httpStatus = 500 ∧
    postStores db tenantId idempotencyKey uuid now (faultAt .insStore) =
      (.serverError, db,
       [.idemLookup, .globalCount, .tenantCount, .rateCount, .insStore]) ∧
    postStores db tenantId idempotencyKey uuid now (faultAt .insIdem) =
      (.serverError, db,
       [.idemLookup, .globalCount, .tenantCount, .rateCount, .insStore, .insIdem]) ∧
    postStores db tenantId idempotencyKey uuid now (faultAt .insRate) =
      (.serverError, db,
       [.idemLookup, .globalCount, .tenantCount, .rateCount, .insStore, .insIdem, .insRate]) ∧
    postStores db tenantId idempotencyKey uuid now (faultAt .globalCount) =
      (.rateLimited "Internal error" none none, db, [.idemLookup, .globalCount]) ∧
    postStores db tenantId idempotencyKey uuid now (faultAt .tenantCount) =
      (.rateLimited "Internal error" none none, db,
       [.idemLookup, .globalCount, .tenantCount]) ∧
    postStores db tenantId idempotencyKey uuid now (faultAt .rateCount) =
      (.rateLimited "Internal error" none none, db,
       [.idemLookup, .globalCount, .tenantCount, .rateCount]) ∧
    (postStores db tenantId idempotencyKey uuid now (faultAt .rateCount)).1.httpStatus = 429 := by
  have h1 : postStores db tenantId idempotencyKey uuid now (faultAt .idemLookup) =
      (.serverError, db, [.idemLookup]) := by
    unfold postStores
    rw [show faultAt QuerySite.idemLookup QuerySite.idemLookup = true from rfl]
    simp
  have h2 : postStores db tenantId idempotencyKey uuid now (faultAt .insStore) =
      (.serverError, db,
       [.idemLookup, .globalCount, .tenantCount, .rateCount, .insStore]) := by
    unfold postStores
    rw [show faultAt QuerySite.insStore QuerySite.idemLookup = false from rfl, hIdem,
      validateRateLimit_ok db tenantId now (faultAt .insStore) rfl rfl rfl hG hT hR,
      show faultAt QuerySite.insStore QuerySite.insStore = true from rfl]
    simp
  have h3 : postStores db tenantId idempotencyKey uuid now (faultAt .insIdem) =
      (.serverError, db,
       [.idemLookup, .globalCount, .tenantCount, .rateCount, .insStore, .insIdem]) := by
    unfold postStores
    rw [show faultAt QuerySite.insIdem QuerySite.idemLookup = false from rfl, hIdem,
      validateRateLimit_ok db tenantId now (faultAt .insIdem) rfl rfl rfl hG hT hR,
      show faultAt QuerySite.insIdem QuerySite.insStore = false from rfl, hNoC,
      show faultAt QuerySite.insIdem QuerySite.insIdem = true from rfl]
    simp
  have h4 : postStores db tenantId idempotencyKey uuid now (faultAt .insRate) =
      (.serverError, db,
       [.idemLookup, .globalCount, .tenantCount, .rateCount, .insStore, .insIdem,
        .insRate]) := by
    unfold postStores
    rw [show faultAt QuerySite.insRate QuerySite.idemLookup = false from rfl, hIdem,
      validateRateLimit_ok db tenantId now (faultAt .insRate) rfl rfl rfl hG hT hR,
      show faultAt QuerySite.insRate QuerySite.insStore = false from rfl, hNoC,
      show faultAt QuerySite.insRate QuerySite.insIdem = false from rfl, hNoKey,
      show faultAt QuerySite.insRate QuerySite.insRate = true from rfl]
    simp
  have h5 : postStores db tenantId idempotencyKey uuid now (faultAt .globalCount) =
      (.rateLimited "Internal error" none none, db, [.idemLookup, .globalCount]) := by
    unfold postStores
    rw [show faultAt QuerySite.globalCount QuerySite.idemLookup = false from rfl, hIdem,
      validateRateLimit_fault_global db tenantId now (faultAt .globalCount) rfl]
    simp [truthyRetry]
  have h6 : postStores db tenantId idempotencyKey uuid now (faultAt .tenantCount) =
      (.rateLimited "Internal error" none none, db,
       [.idemLookup, .globalCount, .tenantCount]) := by
    unfold postStores
    rw [show faultAt QuerySite.tenantCount QuerySite.idemLookup = false from rfl, hIdem,
      validateRateLimit_fault_tenant db tenantId now (faultAt .tenantCount) rfl rfl hG]
    simp [truthyRetry]
  have h7 : postStores db tenantId idempotencyKey uuid now (faultAt .rateCount) =
      (.rateLimited "Internal error" none none, db,
       [.idemLookup, .globalCount, .tenantCount, .rateCount]) := by
    unfold postStores
    rw [show faultAt QuerySite.rateCount QuerySite.idemLookup = false from rfl, hIdem,
      validateRateLimit_fault_rate db tenantId now (faultAt .rateCount) rfl rfl rfl hG hT]
    simp [truthyRetry]
  exact ⟨h1, by rw [h1]; rfl, h2, h3, h4, h5, h6, h7, by rw [h7]; rfl⟩

/-- Witness for C8 on a concrete database: a fault injected into the
store insert yields 500 with the empty database unchanged, and a fault
injected into the rate-window count yields 429. -/
theorem C8_witness :
    postStores dbEmpty "t1" "k1" uuidW 0 (faultAt .insStore) =
      (.serverError, dbEmpty,
       [.idemLookup, .globalCount, .tenantCount, .rateCount, .insStore]) ∧
    postStores dbEmpty "t1" "k1" uuidW 0 (faultAt .rateCount) =
      (.rateLimited "Internal error" none none, dbEmpty,
       [.idemLookup, .globalCount, .tenantCount, .rateCount]) := by
  obtain ⟨-, -, h2, -, -, -, -, h7, -⟩ :=
    C8_persistence_errors dbEmpty "t1" "k1" uuidW 0 (by decide) (by decide)
      (by decide) (by decide) (by decide) (by decide)
  exact ⟨h2, h7⟩

/-- C1: Deleted is NOT terminal in the code.  In the reachable trace
c1sys1..c1sys4 a store is created, deleted while its provisioning task
is still pending, and reaches status Deleted; the readiness loop then
times out and its final UPDATE (WHERE id only, no status guard)
overwrites Deleted with Failed.  This exhibits the interleaving on
which the claimed invariant fails. -/
theorem C1_deleted_overwritten :
    Reaches c1sys4 ∧
    c1sys3.db.stores.map (fun s => s.status) = [.deleted] ∧
    c1sys4 = applyStep c1sys3
      (.provisionFinish "store-abcd1234" false "Provisioning timeout exceeded" 300005) ∧
    c1sys4.db.stores.map (fun s => (s.status, s.failure_reason)) =
      [(.failed, some "Provisioning timeout exceeded")] := by
  refine ⟨?_, by decide, rfl, by decide⟩
  exact Reaches.step c1sys3 _ (Reaches.step c1sys2 _
    (Reaches.step c1sys1 _ (Reaches.step sysInit _ Reaches.init)))

/-- Rows of a WHERE id = ? map update come from the old table: either
untouched or through the row transformer. -/
theorem mem_mapIf {l : List StoreRow} {storeId : String}
    {g : StoreRow → StoreRow} {row : StoreRow}
    (h : row ∈ l.map (fun s => if s.id == storeId then g s else s)) :
    row ∈ l ∨ ∃ r, r ∈ l ∧ row = g r := by
  rcases List.mem_map.1 h with ⟨r, hr, hfr⟩
  by_cases hid : (r.id == storeId) = true
  · right
    exact ⟨r, hr, by rw [← hfr, if_pos hid]⟩
  · left
    rw [← hfr, if_neg hid]
    exact hr

/-- Every stores row after a POST /stores is an old row or the freshly
inserted Provisioning row. -/
theorem postStores_mem_stores (db : DB)
    (tenantId idempotencyKey uuid : String) (now : Int)
    (fault : QuerySite → Bool) :
    ∀ row ∈ (postStores db tenantId idempotencyKey uuid now fault).2.1.stores,
      row ∈ db.stores ∨ row = mkNewStore tenantId uuid now := by
  intro row hrow
  unfold postStores at hrow
  repeat' split at hrow
  all_goals try exact Or.inl hrow
  rcases List.mem_append.1 hrow with h | h
  · exact Or.inl h
  · simp only [List.mem_singleton] at h
    exact Or.inr h

/-- Every stores row after a DELETE /stores/:id is an old row or an old
row moved to Deleting. -/
theorem deleteStores_mem_stores (db : DB) (storeId tenantId : String) (now : Int) :
    ∀ row ∈ (deleteStores db storeId tenantId now).2.stores,
      row ∈ db.stores ∨
      ∃ r, r ∈ db.stores ∧
        row = { r with status := .deleting, deletion_started_at := some now } := by
  intro row hrow
  unfold deleteStores at hrow
  repeat' split at hrow
  all_goals try exact Or.inl hrow
  rcases mem_mapIf hrow with h | h
  · exact Or.inl h
  · exact Or.inr h

/-- C3 amended: in every reachable state, a store with status Failed
has a non-null failure_reason (every transition to Failed writes one).
The converse direction of the claimed biconditional is refuted by
C3_failure_reason_iff_fails. -/
theorem C3_failed_implies_reason (s : Sys) (h : Reaches s) :
    ∀ row ∈ s.db.stores, row.status = .failed → row.failure_reason ≠ none := by
  induction h with
  | init => intro row hrow; simp [sysInit] at hrow
  | step s0 st hs ih =>
    intro row hrow hfail
    cases st with
    | create tenantId idempotencyKey uuid now =>
      simp only [applyStep] at hrow
      rcases postStores_mem_stores s0.db tenantId idempotencyKey uuid now noFault
          row hrow with h | h
      · exact ih row h hfail
      · rw [h] at hfail
        simp [mkNewStore] at hfail
    | provisionFinish storeId ready reason now =>
      simp only [applyStep] at hrow
      split at hrow
      · split at hrow
        · unfold updateStatusReady at hrow
          rcases mem_mapIf hrow with h | ⟨r, hr, hre⟩
          · exact ih row h hfail
          · rw [hre] at hfail
            simp at hfail
        · unfold updateStatusFailed at hrow
          rcases mem_mapIf hrow with h | ⟨r, hr, hre⟩
          · exact ih row h hfail
          · rw [hre]
            simp
      · exact ih row hrow hfail
    | deleteReq storeId tenantId now =>
      simp only [applyStep] at hrow
      rcases deleteStores_mem_stores s0.db storeId tenantId now row hrow with h | ⟨r, hr, hre⟩
      · exact ih row h hfail
      · rw [hre] at hfail
        simp at hfail
    | deleteFinish storeId ok errMsg now =>
      simp only [applyStep] at hrow
      split at hrow
      · split at hrow
        · unfold updateStatusDeleted at hrow
          rcases mem_mapIf hrow with h | ⟨r, hr, hre⟩
          · exact ih row h hfail
          · rw [hre] at hfail
            simp at hfail
        · unfold updateDeletionFailed at hrow
          rcases mem_mapIf hrow with h | ⟨r, hr, hre⟩
          · exact ih row h hfail
          · rw [hre]
            simp
      · exact ih row hrow hfail
    | cleanup now =>
      exact ih row hrow hfail

/-- C3 counterexample: the biconditional fails in a reachable state.
After create, provisioning failure (Failed, reason boom) and a delete
request, the store is Deleting yet still carries failure_reason boom:
the delete path never clears the reason. -/
theorem C3_failure_reason_iff_fails :
    Reaches c3sys3 ∧
    c3sys3.db.stores.map (fun s => (s.status, s.failure_reason)) =
      [(.deleting, some "boom")] ∧
    ∃ row ∈ c3sys3.db.stores,
      row.failure_reason ≠ none ∧ row.status ≠ .failed := by
  refine ⟨?_, by decide, by decide⟩
  exact Reaches.step c3sys2 _ (Reaches.step c3sys1 _ (Reaches.step sysInit _ Reaches.init))

/-- Witness for C3: the forward implication applied to the reachable
state c3sys2 and its concrete Failed row. -/
theorem C3_witness : rowC3.failure_reason ≠ none :=
  C3_failed_implies_reason c3sys2
    (Reaches.step c3sys1 _ (Reaches.step sysInit _ Reaches.init))
    rowC3 (by decide) (by decide)

/-- A successful POST /stores can only return the store row built by
the create path. -/
theorem postStores_created_inv (db : DB)
    (tenantId idempotencyKey uuid : String) (now : Int)
    (fault : QuerySite → Bool) (store : StoreRow) (db2 : DB)
    (qs : List QuerySite)
    (h : postStores db tenantId idempotencyKey uuid now fault =
      (.created store, db2, qs)) :
    store = mkNewStore tenantId uuid now := by
  unfold postStores at h
  repeat' split at h
  all_goals simp_all

theorem isLowerHex_allowed {c : Char} (h : isLowerHex c) : allowedHostChar c := by
  unfold isLowerHex at h
  unfold allowedHostChar
  omega

theorem mkStoreId_data (uuid : String) :
    (mkStoreId uuid).data = "store-".data ++ uuid.data.take 8 := rfl

theorem mkHost_data (s : String) :
    (mkHost s).data = s.data ++ ".127.0.0.1.nip.io".data := rfl

/-- C9: every store created by POST /stores has id "store-" followed by
the first 8 characters of the uuid (8 lowercase hex characters, so an
id of length 14 matching store-[0-9a-f]\x7b8\x7d), a namespace equal to
the id, and a host equal to the id, a dot and the DNS suffix; all
characters of id and host lie in the class [a-z0-9-.]. -/
theorem C9_store_identifier_shape (db : DB)
    (tenantId idempotencyKey uuid : String) (now : Int)
    (fault : QuerySite → Bool) (store : StoreRow) (db2 : DB)
    (qs : List QuerySite)
    (hlen : 8 ≤ uuid.data.length)
    (hhex : ∀ c ∈ uuid.data.take 8, isLowerHex c)
    (hpost : postStores db tenantId idempotencyKey uuid now fault =
      (.created store, db2, qs)) :
    store.id = mkStoreId uuid ∧
    store.nspace = store.id ∧
    store.host = mkHost store.id ∧
    (mkStoreId uuid).data.length = 14 ∧
    (mkStoreId uuid).data.take 6 = "store-".data ∧
    (∀ c ∈ (mkStoreId uuid).data.drop 6, isLowerHex c) ∧
    (∀ c ∈ (mkStoreId uuid).data, allowedHostChar c) ∧
    (∀ c ∈ (mkHost (mkStoreId uuid)).data, allowedHostChar c) := by
  have hstore : store = mkNewStore tenantId uuid now :=
    postStores_created_inv db tenantId idempotencyKey uuid now fault store db2 qs hpost
  have hsix : ("store-".data).length = 6 := by decide
  have htake : (uuid.data.take 8).length = 8 := by
    rw [List.length_take]
    omega
  have hallPre : ∀ c ∈ "store-".data, allowedHostChar c := by decide
  have hallSuf : ∀ c ∈ ".127.0.0.1.nip.io".data, allowedHostChar c := by decide
  refine ⟨by rw [hstore]; rfl, by rw [hstore]; rfl, by rw [hstore]; rfl, ?_, ?_, ?_, ?_, ?_⟩
  · rw [mkStoreId_data, List.length_append, hsix, htake]
  · rw [mkStoreId_data, ← hsix, List.take_left]
  · rw [mkStoreId_data, ← hsix, List.drop_left]
    exact hhex
  · intro c hc
    rw [mkStoreId_data] at hc
    rcases List.mem_append.1 hc with hc | hc
    · exact hallPre c hc
    · exact isLowerHex_allowed (hhex c hc)
  · intro c hc
    rw [mkHost_data] at hc
    rcases List.mem_append.1 hc with hc | hc
    · rw [mkStoreId_data] at hc
      rcases List.mem_append.1 hc with hc | hc
      · exact hallPre c hc
      · exact isLowerHex_allowed (hhex c hc)
    · exact hallSuf c hc

/-- Witness for C9 on a concrete create: the id built from uuidW has
length 14. -/
theorem C9_witness : (mkStoreId uuidW).data.length = 14 :=
  (C9_store_identifier_shape dbEmpty "t1" "k1" uuidW 0 noFault
    (mkNewStore "t1" uuidW 0)
    (postStores dbEmpty "t1" "k1" uuidW 0 noFault).2.1
    (postStores dbEmpty "t1" "k1" uuidW 0 noFault).2.2
    (by decide) (by decide) (by decide)).2.2.2.1

/-- C6: DELETE /stores/:id answers 404 when no row of that id and
tenant exists, an idempotent 200 with no state change when the row is
Deleted or Deleting, and otherwise updates the locked row to status
Deleting with deletion_started_at = now and answers 200. -/
theorem C6_delete_cases (db : DB) (storeId tenantId : String) (now : Int) :
    (db.stores.find? (fun s => s.id == storeId && s.tenant_id == tenantId) = none →
      deleteStores db storeId tenantId now = (.notFound, db) ∧
      (DeleteResp.notFound).httpStatus = 404) ∧
    (∀ store,
      db.stores.find? (fun s => s.id == storeId && s.tenant_id == tenantId) = some store →
      (store.status = .deleted →
        deleteStores db storeId tenantId now = (.alreadyDeleted store, db) ∧
        (DeleteResp.alreadyDeleted store).httpStatus = 200) ∧
      (store.status = .deleting →
        deleteStores db storeId tenantId now = (.inProgress store, db) ∧
        (DeleteResp.inProgress store).httpStatus = 200) ∧
      (store.status ≠ .deleted → store.status ≠ .deleting →
        deleteStores db storeId tenantId now =
          (.initiated { store with status := .deleting },
            { db with
              stores := db.stores.map (fun s =>
                if s.id == storeId then
                  { s with status := .deleting, deletion_started_at := some now }
                else s)
              audit_logs := db.audit_logs ++ [deleteAudit tenantId storeId now] }) ∧
        (DeleteResp.initiated { store with status := .deleting }).httpStatus = 200)) := by
  constructor
  · intro h
    unfold deleteStores
    rw [h]
    exact ⟨rfl, rfl⟩
  · intro store h
    refine ⟨?_, ?_, ?_⟩
    · intro hd
      refine ⟨?_, rfl⟩
      unfold deleteStores
      rw [h]
      simp [hd]
    · intro hd
      refine ⟨?_, rfl⟩
      unfold deleteStores
      rw [h]
      have hne : store.status ≠ .deleted := by rw [hd]; decide
      simp [hd, hne]
    · intro h1 h2
      refine ⟨?_, rfl⟩
      unfold deleteStores
      rw [h]
      simp [h1, h2]

/-- Witness for C6 on a concrete database: deleting the Ready store
store-1 of tenant t1 at time 7 initiates deletion. -/
theorem C6_witness :
    deleteStores dbC2 "store-1" "t1" 7 =
      (.initiated { storeC2 with status := .deleting },
        { dbC2 with
          stores := dbC2.stores.map (fun s =>
            if s.id == "store-1" then
              { s with status := .deleting, deletion_started_at := some 7 }
            else s)
          audit_logs := dbC2.audit_logs ++ [deleteAudit "t1" "store-1" 7] }) :=
  (((C6_delete_cases dbC2 "store-1" "t1" 7).2 storeC2 (by decide)).2.2
    (by decide) (by decide)).1

/-- C10: the three short-circuit answers of DELETE /stores/:id (404,
already deleted, deletion in progress) perform no write at all: the
returned database is the input database, every table included. -/
theorem C10_delete_short_circuit_frame (db : DB) (storeId tenantId : String)
    (now : Int) :
    (db.stores.find? (fun s => s.id == storeId && s.tenant_id == tenantId) = none →
      (deleteStores db storeId tenantId now).2 = db) ∧
    (∀ store,
      db.stores.find? (fun s => s.id == storeId && s.tenant_id == tenantId) = some store →
      store.status = .deleted → (deleteStores db storeId tenantId now).2 = db) ∧
    (∀ store,
      db.stores.find? (fun s => s.id == storeId && s.tenant_id == tenantId) = some store →
      store.status = .deleting → (deleteStores db storeId tenantId now).2 = db) := by
  refine ⟨?_, ?_, ?_⟩
  · intro h
    unfold deleteStores
    rw [h]
  · intro store h hd
    unfold deleteStores
    rw [h]
    simp [hd]
  · intro store h hd
    unfold deleteStores
    rw [h]
    have hne : store.status ≠ .deleted := by rw [hd]; decide
    simp [hd, hne]

/-- Witness for C10 on a concrete database: a second delete of a store
already in status Deleting leaves the whole database unchanged. -/
theorem C10_witness :
    (deleteStores
      { dbC2 with stores := [{ storeC2 with status := .deleting }] }
      "store-1" "t1" 7).2 =
    { dbC2 with stores := [{ storeC2 with status := .deleting }] } :=
  (C10_delete_short_circuit_frame
      { dbC2 with stores := [{ storeC2 with status := .deleting }] }
      "store-1" "t1" 7).2.2
    { storeC2 with status := .deleting } (by decide) (by decide)

end StorePlatform
